import Mathlib

/-!
Shallow embedding of the scoped media-inspection and file-explorer subsystem
(src/services/files_service.py) of PyWebDownloadManager, together with proofs
about the claims of the specification.

Modelling conventions:
* Python byte strings are `List Nat` (each element is one byte value).
* Python `str` is Lean `String` (a list of unicode scalar values).
* Python `Optional[T]` fields are `Option T`; the Python value `None` is `none`.
* `json.loads` (standard library, not part of the repository) is modelled by
  the executable parser `json_loads` below.  JSON numbers are modelled as
  rationals (Python int/float distinction is not tracked); `NaN`/`Infinity`
  extensions and underscore digit separators are not modelled.  Mappings keep
  insertion order with later duplicate keys overwriting, as Python dicts do.
* `zlib.decompress` is an external codec; the PNG decoder is parameterised
  over it as a function `List Nat → Option (List Nat)` (`none` models a raised
  decompression error).
-/

/-- JSON values as produced by the Python `json` module.  An object is the
ordered key/value list of the dict; a duplicate key overwrites in place. -/
inductive Json where
  | null : Json
  | bool : Bool → Json
  | num : ℚ → Json
  | str : String → Json
  | arr : List Json → Json
  | obj : List (String × Json) → Json

/-- Ordered-mapping insert with Python dict semantics: an existing key keeps
its position and gets the new value, a new key is appended at the end. -/
def insertAssoc {α : Type} (m : List (String × α)) (k : String) (v : α) : List (String × α) :=
  match m with
  | [] => [(k, v)]
  | (k0, v0) :: t => if k0 = k then (k0, v) :: t else (k0, v0) :: insertAssoc t k v

/-- First value stored under key `k` (Python dict lookup). -/
def lookupA {α : Type} (m : List (String × α)) (k : String) : Option α :=
  match m with
  | [] => none
  | (k0, v0) :: t => if k0 = k then some v0 else lookupA t k

/-- Python `k in d` on the modelled mapping. -/
def containsKey {α : Type} (m : List (String × α)) (k : String) : Bool :=
  (lookupA m k).isSome

/-- JSON whitespace characters. -/
def isJsonWs (c : Char) : Bool :=
  c = ' ' || c = '\t' || c = '\n' || c = '\r'

/-- Drop leading JSON whitespace. -/
def skipWs (cs : List Char) : List Char := cs.dropWhile isJsonWs

/-- The opening brace character. -/
def lbrace : Char := Char.ofNat 123

/-- The closing brace character. -/
def rbrace : Char := Char.ofNat 125

/-- Value of a hexadecimal digit. -/
def hexVal (c : Char) : Option Nat :=
  if '0' ≤ c ∧ c ≤ '9' then some (c.toNat - 48)
  else if 'a' ≤ c ∧ c ≤ 'f' then some (c.toNat - 87)
  else if 'A' ≤ c ∧ c ≤ 'F' then some (c.toNat - 70)
  else none

/-- Parse the body of a JSON string literal, the opening quote already
consumed.  `fuel` bounds the recursion and is always at least the remaining
length.  Escapes are the standard JSON ones; a `\u` escape falling in the
surrogate range is replaced (surrogate pairing of CPython is not modelled;
no claim exercises it). -/
def jpStringAux : Nat → List Char → List Char → Option (String × List Char)
  | 0, _, _ => none
  | _ + 1, _, [] => none
  | fuel + 1, acc, c :: rest =>
    if c = '"' then some (⟨acc.reverse⟩, rest)
    else if c = '\\' then
      match rest with
      | [] => none
      | e :: rest2 =>
        if e = '"' then jpStringAux fuel ('"' :: acc) rest2
        else if e = '\\' then jpStringAux fuel ('\\' :: acc) rest2
        else if e = '/' then jpStringAux fuel ('/' :: acc) rest2
        else if e = 'b' then jpStringAux fuel ('\x08' :: acc) rest2
        else if e = 'f' then jpStringAux fuel ('\x0c' :: acc) rest2
        else if e = 'n' then jpStringAux fuel ('\n' :: acc) rest2
        else if e = 'r' then jpStringAux fuel ('\r' :: acc) rest2
        else if e = 't' then jpStringAux fuel ('\t' :: acc) rest2
        else if e = 'u' then
          match rest2 with
          | h1 :: h2 :: h3 :: h4 :: rest3 =>
            match hexVal h1, hexVal h2, hexVal h3, hexVal h4 with
            | some a, some b, some c3, some d =>
              jpStringAux fuel (Char.ofNat (((a * 16 + b) * 16 + c3) * 16 + d) :: acc) rest3
            | _, _, _, _ => none
          | _ => none
        else none
    else if c.toNat < 32 then none
    else jpStringAux fuel (c :: acc) rest

/-- Fold a digit list into a natural number. -/
def digitsToNat (ds : List Char) : Nat :=
  ds.foldl (fun a c => a * 10 + (c.toNat - 48)) 0

/-- Parse a JSON number literal (sign, integer part without leading zeros,
optional fraction, optional exponent), returning its exact rational value.
The rational is built with `mkRat` over integer arithmetic so that it
evaluates inside the kernel. -/
def jpNumber (cs : List Char) : Option (ℚ × List Char) :=
  let signNeg := match cs with | c :: _ => c == '-' | [] => false
  let cs1 := if signNeg then cs.tail else cs
  match cs1 with
  | [] => none
  | d :: _ =>
    if ¬ d.isDigit then none
    else
      let intDigits := if d = '0' then [d] else cs1.takeWhile Char.isDigit
      let cs2 := if d = '0' then cs1.tail else cs1.dropWhile Char.isDigit
      let hasDot := match cs2 with | p :: _ => p == '.' | [] => false
      let fracDigits := if hasDot then cs2.tail.takeWhile Char.isDigit else []
      let cs3 := if hasDot then cs2.tail.dropWhile Char.isDigit else cs2
      if hasDot && fracDigits.isEmpty then none
      else
        let num0 : Nat := digitsToNat (intDigits ++ fracDigits)
        let sNum : Int := if signNeg then -(Int.ofNat num0) else Int.ofNat num0
        let den0 : Nat := 10 ^ fracDigits.length
        let hasExp := match cs3 with | p :: _ => p == 'e' || p == 'E' | [] => false
        if hasExp then
          let cs4 := cs3.tail
          let expNeg := match cs4 with | c :: _ => c == '-' | [] => false
          let cs5 := match cs4 with | c :: r => if c == '-' || c == '+' then r else cs4 | [] => cs4
          let expDigits := cs5.takeWhile Char.isDigit
          let cs6 := cs5.dropWhile Char.isDigit
          if expDigits = [] then none
          else
            let e : Nat := digitsToNat expDigits
            let q : ℚ :=
              if expNeg then mkRat sNum (den0 * 10 ^ e)
              else mkRat (sNum * Int.ofNat (10 ^ e)) den0
            some (q, cs6)
        else
          some (mkRat sNum den0, cs3)

/-- Parsing mode of the recursive-descent JSON parser: a single value, the
members of an object (accumulated so far), or the elements of an array. -/
inductive JPMode where
  | val : JPMode
  | members : List (String × Json) → JPMode
  | elems : List Json → JPMode

/-- Fueled recursive-descent JSON parser.  In `members`/`elems` mode the
input starts at the first non-whitespace character of the next entry. -/
def jpRun : Nat → JPMode → List Char → Option (Json × List Char)
  | 0, _, _ => none
  | fuel + 1, JPMode.val, cs =>
    match skipWs cs with
    | [] => none
    | c :: rest =>
      if c = lbrace then
        match skipWs rest with
        | [] => none
        | c2 :: r2 => if c2 = rbrace then some (Json.obj [], r2) else jpRun fuel (JPMode.members []) (c2 :: r2)
      else if c = '[' then
        match skipWs rest with
        | [] => none
        | c2 :: r2 => if c2 = ']' then some (Json.arr [], r2) else jpRun fuel (JPMode.elems []) (c2 :: r2)
      else if c = '"' then
        match jpStringAux (rest.length + 1) [] rest with
        | some (s, r) => some (Json.str s, r)
        | none => none
      else if c = 't' then
        if ['r', 'u', 'e'].isPrefixOf rest then some (Json.bool true, rest.drop 3) else none
      else if c = 'f' then
        if ['a', 'l', 's', 'e'].isPrefixOf rest then some (Json.bool false, rest.drop 4) else none
      else if c = 'n' then
        if ['u', 'l', 'l'].isPrefixOf rest then some (Json.null, rest.drop 3) else none
      else
        match jpNumber (c :: rest) with
        | some (q, r) => some (Json.num q, r)
        | none => none
  | fuel + 1, JPMode.members acc, cs =>
    match cs with
    | [] => none
    | c :: rest =>
      if c = '"' then
        match jpStringAux (rest.length + 1) [] rest with
        | some (k, r1) =>
          match skipWs r1 with
          | c2 :: r2 =>
            if c2 = ':' then
              match jpRun fuel JPMode.val r2 with
              | some (v, r3) =>
                let acc2 := insertAssoc acc k v
                match skipWs r3 with
                | c3 :: r4 =>
                  if c3 = ',' then
                    match skipWs r4 with
                    | c4 :: r5 => jpRun fuel (JPMode.members acc2) (c4 :: r5)
                    | [] => none
                  else if c3 = rbrace then some (Json.obj acc2, r4)
                  else none
                | [] => none
              | none => none
            else none
          | [] => none
        | none => none
      else none
  | fuel + 1, JPMode.elems acc, cs =>
    match jpRun fuel JPMode.val cs with
    | some (v, r1) =>
      let acc2 := acc ++ [v]
      match skipWs r1 with
      | c2 :: r2 =>
        if c2 = ',' then jpRun fuel (JPMode.elems acc2) r2
        else if c2 = ']' then some (Json.arr acc2, r2)
        else none
      | [] => none
    | none => none

/-- Model of Python `json.loads`: parse one JSON document, requiring the
whole input to be consumed (up to trailing whitespace). -/
def json_loads (s : String) : Option Json :=
  let cs := s.toList
  match jpRun (2 * cs.length + 4) JPMode.val cs with
  | some (v, rest) => if skipWs rest = [] then some v else none
  | none => none

/-- Collapse the JSON value `null` to the Python value `None`. -/
def pyOptJson (j : Json) : Option Json :=
  match j with
  | Json.null => none
  | v => some v

/-- Model of `FilesService._try_json` (src/services/files_service.py lines
473-478): `json.loads` under a blanket `except` returning `None`.  The result
is the *Python* value, so both a parse failure and the document `null` give
`none`. -/
def try_json (s : String) : Option Json :=
  (json_loads s).bind pyOptJson

/-- Bytes of a Latin-1/ASCII string (each char is one byte). -/
def strBytes (s : String) : List Nat := s.toList.map Char.toNat

/-- Python `bytes.decode("latin-1")`: every byte maps to the scalar of the
same value; this decode never fails. -/
def latin1Decode (bs : List Nat) : String := ⟨bs.map Char.ofNat⟩

/-- Python `bytes.decode("ascii", errors="replace")`: bytes above 0x7f become
the replacement character U+FFFD. -/
def asciiReplDecode (bs : List Nat) : String :=
  ⟨bs.map (fun b => if b < 128 then Char.ofNat b else Char.ofNat 65533)⟩

/-- Index of the first NUL byte, Python `bytes.find(b"\x00")` (`none` models
the -1 result). -/
def findNul (bs : List Nat) : Option Nat := bs.findIdx? (fun b => b == 0)

/-- Python slice `l[a:b]` with clamping semantics for non-negative bounds. -/
def sliceL (l : List Nat) (a b : Nat) : List Nat := (l.take b).drop a

/-- Big-endian 32-bit read at `i`, `struct.unpack(">I", data[i:i+4])`; at the
call sites the four bytes are always in range. -/
def readU32 (l : List Nat) (i : Nat) : Nat :=
  l.getD i 0 * 16777216 + l.getD (i + 1) 0 * 65536 + l.getD (i + 2) 0 * 256 + l.getD (i + 3) 0

/-- Fueled UTF-8 decoder used for `iTXt` chunks.  `strict = true` models
`bytes.decode("utf-8")` (any invalid sequence fails); `strict = false` models
`errors="replace"`, emitting U+FFFD and resuming one byte later (the
granularity of CPython replacement for truncated multi-byte sequences is
approximated; no claim depends on it).  `fuel` is at least the input
length, so it never runs out. -/
def utf8Dec : Nat → Bool → List Nat → Option (List Char)
  | 0, _, _ => some []
  | _ + 1, _, [] => some []
  | fuel + 1, strict, b :: rest =>
    let bad : Option (List Char) :=
      if strict then none
      else (utf8Dec fuel strict rest).map (fun cs => Char.ofNat 65533 :: cs)
    if b < 128 then (utf8Dec fuel strict rest).map (fun cs => Char.ofNat b :: cs)
    else if 194 ≤ b ∧ b ≤ 223 then
      match rest with
      | b2 :: rest2 =>
        if 128 ≤ b2 ∧ b2 ≤ 191 then
          (utf8Dec fuel strict rest2).map (fun cs => Char.ofNat ((b - 192) * 64 + (b2 - 128)) :: cs)
        else bad
      | [] => bad
    else if 224 ≤ b ∧ b ≤ 239 then
      match rest with
      | b2 :: b3 :: rest3 =>
        let lo2 := if b = 224 then 160 else 128
        let hi2 := if b = 237 then 159 else 191
        if (lo2 ≤ b2 ∧ b2 ≤ hi2) ∧ (128 ≤ b3 ∧ b3 ≤ 191) then
          (utf8Dec fuel strict rest3).map
            (fun cs => Char.ofNat (((b - 224) * 64 + (b2 - 128)) * 64 + (b3 - 128)) :: cs)
        else bad
      | _ => bad
    else if 240 ≤ b ∧ b ≤ 244 then
      match rest with
      | b2 :: b3 :: b4 :: rest4 =>
        let lo2 := if b = 240 then 144 else 128
        let hi2 := if b = 244 then 143 else 191
        if (lo2 ≤ b2 ∧ b2 ≤ hi2) ∧ (128 ≤ b3 ∧ b3 ≤ 191) ∧ (128 ≤ b4 ∧ b4 ≤ 191) then
          (utf8Dec fuel strict rest4).map
            (fun cs => Char.ofNat ((((b - 240) * 64 + (b2 - 128)) * 64 + (b3 - 128)) * 64 + (b4 - 128)) :: cs)
        else bad
      | _ => bad
    else bad

/-- Python `bytes.decode("utf-8", errors="replace")`. -/
def utf8Replace (bs : List Nat) : String := ⟨(utf8Dec (bs.length + 1) false bs).getD []⟩

/-- Python `bytes.decode("utf-8")` (strict). -/
def utf8Strict (bs : List Nat) : Option String :=
  (utf8Dec (bs.length + 1) true bs).map (fun cs => ⟨cs⟩)

/-- The `FileMetadata` dataclass (src/services/files_service.py lines 40-56).
`raw_text_chunks` is the ordered dict of decoded text chunks. -/
structure FileMetadata where
  width : Option Nat := none
  height : Option Nat := none
  workflow : Option Json := none
  prompt : Option Json := none
  raw_text_chunks : List (String × String) := []
  duration : Option ℚ := none
  fps : Option ℚ := none
  video_codec : Option String := none
  comment : Option String := none
  error : Option String := none

/-- The fixed 8-byte PNG signature. -/
def PNG_SIG : List Nat := [137, 80, 78, 71, 13, 10, 26, 10]

/-- Length field of the chunk whose header starts at `offset`. -/
def chunkLenAt (data : List Nat) (offset : Nat) : Nat := readU32 data offset

/-- Type tag of the chunk at `offset`, decoded as in the source with
`errors="replace"`. -/
def chunkTypeAt (data : List Nat) (offset : Nat) : String :=
  asciiReplDecode (sliceL data (offset + 4) (offset + 8))

/-- Payload `data[offset+8 : offset+8+length]` of the chunk at `offset`. -/
def chunkDataAt (data : List Nat) (offset : Nat) : List Nat :=
  sliceL data (offset + 8) (offset + 8 + chunkLenAt data offset)

/-- `offset += 12 + length` — 4 length + 4 type + payload + 4 CRC. -/
def nextOffset (data : List Nat) (offset : Nat) : Nat :=
  offset + 12 + chunkLenAt data offset

/-- The value bytes of an `iTXt` chunk with the first NUL at `nul`: skip
the compression flag and method byte, then the language tag and the
translated keyword, each of which is dropped up to its own NUL when one is
present (lines 295-302). -/
def itxtRest (chunk : List Nat) (nul : Nat) : List Nat :=
  match findNul (chunk.drop (nul + 3)) with
  | some n2 =>
    match findNul ((chunk.drop (nul + 3)).drop (n2 + 1)) with
    | some n3 => ((chunk.drop (nul + 3)).drop (n2 + 1)).drop (n3 + 1)
    | none => (chunk.drop (nul + 3)).drop (n2 + 1)
  | none =>
    match findNul (chunk.drop (nul + 3)) with
    | some n3 => (chunk.drop (nul + 3)).drop (n3 + 1)
    | none => chunk.drop (nul + 3)
  
/-- One iteration body of the PNG chunk loop (the `if`/`elif` chain of
`FilesService._parse_png`, lines 267-311), for a non-`IEND` chunk.
`dcmp` is the external `zlib.decompress`, `none` modelling a raised error. -/
def pngStep (dcmp : List Nat → Option (List Nat)) (ctype : String) (chunk : List Nat)
    (meta : FileMetadata) : FileMetadata :=
  if ctype = ("IHDR") ∧ 8 ≤ chunk.length then
    { meta with width := some (readU32 chunk 0), height := some (readU32 chunk 4) }
  else if ctype = ("tEXt") then
    match findNul chunk with
    | some nul =>
      let key := latin1Decode (chunk.take nul)
      let value := latin1Decode (chunk.drop (nul + 1))
      { meta with raw_text_chunks := insertAssoc meta.raw_text_chunks key value }
    | none => meta
  else if ctype = ("zTXt") then
    match findNul chunk with
    | some nul =>
      if nul + 2 < chunk.length then
        let key := latin1Decode (chunk.take nul)
        match dcmp (chunk.drop (nul + 2)) with
        | some v =>
          { meta with raw_text_chunks := insertAssoc meta.raw_text_chunks key (latin1Decode v) }
        | none => meta
      else meta
    | none => meta
  else if ctype = ("iTXt") then
    match findNul chunk with
    | some nul =>
      if nul + 3 < chunk.length then
        match (if chunk.getD (nul + 1) 0 ≠ 0
               then (dcmp (itxtRest chunk nul)).bind utf8Strict
               else some (utf8Replace (itxtRest chunk nul))) with
        | some t =>
          { meta with
            raw_text_chunks := insertAssoc meta.raw_text_chunks (utf8Replace (chunk.take nul)) t }
        | none => meta
      else meta
    | none => meta
  else meta

/-- The chunk-scanning loop of `_parse_png` (lines 260-314): as long as at
least 8 bytes remain, read length and type, process the chunk, advance by
`12 + length`; an `IEND` chunk stops the loop.  The loop in the source
terminates because the offset strictly grows; here the structural `fuel`
argument (one unit per iteration, at least the number of remaining bytes at
entry, see the termination theorem below) makes the recursion structural so
that concrete runs evaluate inside the kernel. -/
def pngLoop (dcmp : List Nat → Option (List Nat)) (data : List Nat) :
    Nat → Nat → FileMetadata → FileMetadata
  | 0, _, meta => meta
  | fuel + 1, offset, meta =>
    if offset + 8 ≤ data.length then
      if chunkTypeAt data offset = ("IEND") then meta
      else
        pngLoop dcmp data fuel (nextOffset data offset)
          (pngStep dcmp (chunkTypeAt data offset) (chunkDataAt data offset) meta)
    else meta

/-- The post-loop lift of ComfyUI chunks (lines 317-325): the first present
key of `workflow`/`Workflow` (resp. `prompt`/`Prompt`) is run through
`_try_json` and assigned, a failed parse assigning `None`. -/
def liftWorkflow (meta : FileMetadata) : FileMetadata :=
  if containsKey meta.raw_text_chunks ("workflow") then
    { meta with workflow := (lookupA meta.raw_text_chunks ("workflow")).bind try_json }
  else if containsKey meta.raw_text_chunks ("Workflow") then
    { meta with workflow := (lookupA meta.raw_text_chunks ("Workflow")).bind try_json }
  else meta

/-- The prompt half of the post-loop lift (lines 322-325). -/
def liftPrompt (meta : FileMetadata) : FileMetadata :=
  if containsKey meta.raw_text_chunks ("prompt") then
    { meta with prompt := (lookupA meta.raw_text_chunks ("prompt")).bind try_json }
  else if containsKey meta.raw_text_chunks ("Prompt") then
    { meta with prompt := (lookupA meta.raw_text_chunks ("Prompt")).bind try_json }
  else meta

/-- Both lifts in source order. -/
def liftMeta (meta : FileMetadata) : FileMetadata := liftPrompt (liftWorkflow meta)

/-- `FilesService._parse_png` (lines 243-332) on an in-memory byte buffer
(the `path.read_bytes()` I/O having succeeded): verify the signature, run
the chunk loop from offset 8, lift the ComfyUI payloads.  A bad signature is
the `error` result; the loop itself never sets `error`. -/
def parse_png (dcmp : List Nat → Option (List Nat)) (data : List Nat) : FileMetadata :=
  if PNG_SIG.isPrefixOf data then liftMeta (pngLoop dcmp data data.length 8 {})
  else { error := some ("Not a valid PNG file") }

/-- A decompressor that always fails; used where no compressed chunk occurs. -/
def noDecomp : List Nat → Option (List Nat) := fun _ => none

/-- Python `str.startswith`. -/
def pyStartsWith (s p : String) : Bool := p.toList.isPrefixOf s.toList

/-- Model of Python `int(str)`: optional surrounding whitespace, optional
sign, then decimal digits (the underscore separators Python also accepts are
not modelled; no probe field uses them). -/
def pythonInt (s : String) : Option Int :=
  let cs := ((s.toList.dropWhile isJsonWs).reverse.dropWhile isJsonWs).reverse
  match cs with
  | [] => none
  | c :: rest =>
    let signNeg := c == '-'
    let digits := if c == '-' || c == '+' then rest else cs
    if digits ≠ [] ∧ digits.all Char.isDigit then
      some (if signNeg then -(Int.ofNat (digitsToNat digits)) else Int.ofNat (digitsToNat digits))
    else none

/-- Model of Python `float(str)` restricted to plain decimal literals
(optional sign, digits, optional fractional digits); exponents, `inf`/`nan`
are not modelled — ffprobe duration strings are plain decimals. -/
def pythonFloat (s : String) : Option ℚ :=
  let cs := ((s.toList.dropWhile isJsonWs).reverse.dropWhile isJsonWs).reverse
  match cs with
  | [] => none
  | c :: rest =>
    let signNeg := c == '-'
    let body := if c == '-' || c == '+' then rest else cs
    let intDigits := body.takeWhile Char.isDigit
    let afterInt := body.dropWhile Char.isDigit
    match afterInt with
    | [] =>
      if intDigits = [] then none
      else some (mkRat (if signNeg then -(Int.ofNat (digitsToNat intDigits))
                        else Int.ofNat (digitsToNat intDigits)) 1)
    | p :: fracPart =>
      if p = '.' ∧ fracPart.all Char.isDigit ∧ ¬ (intDigits = [] ∧ fracPart = []) then
        let num0 := digitsToNat (intDigits ++ fracPart)
        some (mkRat (if signNeg then -(Int.ofNat num0) else Int.ofNat num0) (10 ^ fracPart.length))
      else none

/-- Round-half-even of a rational, computed on numerator and denominator so
it evaluates inside the kernel. -/
def roundHalfEvenQ (r : ℚ) : Int :=
  let f := r.num.fdiv (Int.ofNat r.den)
  let rem2 := 2 * (r.num - f * Int.ofNat r.den)
  if rem2 < Int.ofNat r.den then f
  else if Int.ofNat r.den < rem2 then f + 1
  else if f % 2 = 0 then f else f + 1

/-- Model of Python `round(x, 3)`.  Python rounds the IEEE double `x`
half-to-even at the third decimal; here the value is an exact rational and
the rounding is exact half-to-even. -/
def pyRound3 (q : ℚ) : ℚ := mkRat (roundHalfEvenQ (mkRat (q.num * 1000) q.den)) 1000

/-- One entry of the ffprobe `streams` list, restricted to the fields the
source reads.  In the ffprobe JSON, `width`/`height` are integers and the
frame-rate fields are `"num/den"` strings. -/
structure ProbeStream where
  codec_type : Option String := none
  width : Option Nat := none
  height : Option Nat := none
  codec_name : Option String := none
  r_frame_rate : Option String := none
  avg_frame_rate : Option String := none

/-- The ffprobe `format` section: the duration string and the tag mapping. -/
structure ProbeFormat where
  duration : Option String := none
  tags : List (String × String) := []

/-- Parsed ffprobe output (`json.loads(result.stdout)`), restricted to the
fields the source reads. -/
structure ProbeData where
  streams : List ProbeStream := []
  format : ProbeFormat := {}

/-- Python `a or b` on optional strings (`None` and `""` are falsy). -/
def pyOr (a b : Option String) : Option String :=
  match a with
  | some s => if s = "" then b else some s
  | none => b

/-- Python truthiness filter on an optional string. -/
def truthyOpt (o : Option String) : Option String :=
  match o with
  | some s => if s = "" then none else some s
  | none => none

/-- `fps_str = stream.get("r_frame_rate") or stream.get("avg_frame_rate", "")`
(line 383): the first field if truthy, else the second defaulted to `""`. -/
def fpsStrOf (r a : Option String) : String :=
  match pyOr r (some (a.getD "")) with
  | some s => s
  | none => ""

/-- Python `fps_str.split("/", 1)` when a slash is present. -/
def splitFirstSlash (s : String) : String × String :=
  let cs := s.toList
  (⟨cs.takeWhile (fun c => c ≠ '/')⟩, ⟨(cs.dropWhile (fun c => c ≠ '/')).tail⟩)

/-- The frame-rate computation of `_parse_video` (lines 383-389): split the
rational string at the first slash, parse both integers, divide and round to
3 decimals; a zero denominator, a missing field or a parse failure leaves
the result unset, and the division is only performed for a nonzero
denominator. -/
def computeFps (r a : Option String) : Option ℚ :=
  if (fpsStrOf r a).toList.contains ('/') then
    match pythonInt (splitFirstSlash (fpsStrOf r a)).2 with
    | some d =>
      if d ≠ 0 then
        match pythonInt (splitFirstSlash (fpsStrOf r a)).1 with
        | some n => some (pyRound3 (Rat.divInt n d))
        | none => none
      else none
    | none => none
  else none

/-- The video-stream pass of `_parse_video` (lines 376-390): the first
stream whose `codec_type` is `video` supplies width, height, codec and fps. -/
def streamPass (streams : List ProbeStream) (meta : FileMetadata) : FileMetadata :=
  match streams.find? (fun s => s.codec_type == some ("video")) with
  | some s =>
    { meta with
      width := s.width
      height := s.height
      video_codec := s.codec_name
      fps := computeFps s.r_frame_rate s.avg_frame_rate }
  | none => meta

/-- The duration pass (lines 395-398): `float(fmt.get("duration", 0)) or
None` under `except (TypeError, ValueError)` — a missing field gives
`float(0) = 0.0`, which the `or None` collapses to `None`, as does an
unparsable string or a parsed zero. -/
def durationPass (duration : Option String) (meta : FileMetadata) : FileMetadata :=
  match duration with
  | none => meta
  | some s =>
    match pythonFloat s with
    | none => meta
    | some q => if q = 0 then meta else { meta with duration := some q }

/-- The effective comment tag (lines 405-410): the `or`-chain over the
`comment`/`Comment`/`COMMENT` keys followed by the `if comment_raw:`
truthiness test — the first truthy value, if any. -/
def commentRawOf (tags : List (String × String)) : Option String :=
  truthyOpt (pyOr (lookupA tags ("comment"))
    (pyOr (lookupA tags ("Comment")) (lookupA tags ("COMMENT"))))

/-- The body of the comment block (lines 411-423) for a truthy comment `c`:
record the raw comment, and if it parses to a JSON object apply the
nodes/prompt precedence rules.  Assigning `parsed["prompt"]` in Python
stores the Python value, so a JSON `null` member leaves the field `None` —
hence `pyOptJson` at the one place a raw member value is assigned. -/
def commentApply (c : String) (meta : FileMetadata) : FileMetadata :=
  match try_json c with
  | some (Json.obj kvs) =>
    if containsKey kvs ("nodes") then
      match lookupA kvs ("prompt") with
      | some (Json.obj p) =>
        { meta with comment := some c, workflow := some (Json.obj kvs),
                    prompt := some (Json.obj p) }
      | _ => { meta with comment := some c, workflow := some (Json.obj kvs) }
    else
      match lookupA kvs ("prompt") with
      | some pv =>
        match lookupA kvs ("workflow") with
        | some (Json.obj w) =>
          { meta with comment := some c, prompt := pyOptJson pv,
                      workflow := some (Json.obj w) }
        | _ => { meta with comment := some c, prompt := pyOptJson pv }
      | none => { meta with comment := some c, prompt := some (Json.obj kvs) }
  | _ => { meta with comment := some c }

/-- The comment block guarded by truthiness (lines 410-423). -/
def commentPass (tags : List (String × String)) (meta : FileMetadata) : FileMetadata :=
  match commentRawOf tags with
  | some c => commentApply c meta
  | none => meta

/-- The `for key in (...)` loops over standalone tags (lines 431 and 442):
the loop body runs `break` as soon as a key holds a truthy value, so only
the first truthy value among the candidate keys is examined. -/
def firstTruthyKeyVal (tags : List (String × String)) (keys : List String) : Option String :=
  match keys with
  | [] => none
  | k :: rest =>
    match truthyOpt (lookupA tags k) with
    | some v => some v
    | none => firstTruthyKeyVal tags rest

/-- Candidate keys of the standalone workflow tag. -/
def wfKeys : List String := ["workflow", "Workflow", "WORKFLOW"]

/-- Candidate keys of the standalone prompt tag. -/
def prKeys : List String := ["prompt", "Prompt", "PROMPT"]

/-- The standalone-workflow fallback (lines 430-439): only when `workflow`
is still unset, and only honoring a parsed JSON object with a `nodes` key;
the raw tag also backfills `comment` if that is still unset. -/
def standaloneWorkflowPass (tags : List (String × String)) (meta : FileMetadata) : FileMetadata :=
  if meta.workflow.isNone then
    match firstTruthyKeyVal tags wfKeys with
    | some raw =>
      match try_json raw with
      | some (Json.obj kvs) =>
        if containsKey kvs ("nodes") then
          { meta with
            workflow := some (Json.obj kvs)
            comment := if meta.comment.isNone then some raw else meta.comment }
        else meta
      | _ => meta
    | none => meta
  else meta

/-- The standalone-prompt fallback (lines 441-448): only when `prompt` is
still unset; any parsed JSON object is honored. -/
def standalonePromptPass (tags : List (String × String)) (meta : FileMetadata) : FileMetadata :=
  if meta.prompt.isNone then
    match firstTruthyKeyVal tags prKeys with
    | some raw =>
      match try_json raw with
      | some (Json.obj kvs) => { meta with prompt := some (Json.obj kvs) }
      | _ => meta
    | none => meta
  else meta

/-- `FilesService._parse_video` (lines 336-454) after a successful ffprobe
run and JSON parse of its output (the subprocess failure branches produce
fixed `error` strings and touch nothing else). -/
def parse_video (pd : ProbeData) : FileMetadata :=
  standalonePromptPass pd.format.tags
    (standaloneWorkflowPass pd.format.tags
      (commentPass pd.format.tags
        (durationPass pd.format.duration
          (streamPass pd.streams {}))))

/-- Render an absolute POSIX path from its segment list, `str(Path)`:
`[]` is the filesystem root `/`. -/
def renderPath (segs : List String) : String :=
  if segs.isEmpty then ("/") else ("/") ++ String.intercalate ("/") segs

/-- Python `str.split("/")` (structural helper; `String.splitOn` of the
core library does not evaluate inside the kernel). -/
def splitSlashList : List Char → List Char → List String
  | acc, [] => [⟨acc.reverse⟩]
  | acc, c :: rest =>
    if c = '/' then ⟨acc.reverse⟩ :: splitSlashList [] rest
    else splitSlashList (c :: acc) rest

/-- Split a string at `/` separators. -/
def splitSlash (s : String) : List String := splitSlashList [] s.toList

/-- `(base / relative).resolve()` for a relative caller string, on a
symlink-free tree: split on `/`, drop empty and `.` segments, let `..` pop
one segment (clamping at the filesystem root, as `Path.resolve` does). -/
def resolveSegs (base : List String) (rel : String) : List String :=
  (splitSlash rel).foldl
    (fun acc seg =>
      if seg = "" ∨ seg = "." then acc
      else if seg = ".." then acc.dropLast
      else acc ++ [seg]) base

/-- The containment check shared by `get_safe_path` (line 125), `browse`
(line 91) and `build_zip` (line 180):
`str(target).startswith(str(base))` — a plain string-prefix test with no
separator requirement. -/
def pathGuard (base target : List String) : Bool :=
  pyStartsWith (renderPath target) (renderPath base)

/-- `FilesService.get_safe_path` (lines 122-131): resolve the relative path
against the workdir and return it when the guard accepts, `None` otherwise. -/
def get_safe_path (base : List String) (rel : String) : Option (List String) :=
  let target := resolveSegs base rel
  if pathGuard base target then some target else none

/-- The containment relation the specification asks for: the resolved path
is byte-for-byte the root, or extends the root past a path separator. -/
def insideRootB (base target : List String) : Bool :=
  renderPath target == renderPath base ||
    pyStartsWith (renderPath target) (renderPath base ++ ("/"))

/-- Kind of a directory entry as classified by `e.is_dir()` / `e.is_file()`
(an entry can be neither, e.g. a broken symlink). -/
inductive EntryKind where
  | dir : EntryKind
  | file : EntryKind
  | other : EntryKind
deriving DecidableEq, BEq

/-- The successful browse response (lines 100-115). -/
structure DirectoryListing where
  current : String
  parts : List String
  folders : List String
  files : List String
  can_go_up : Bool

/-- Python `sorted` on strings: a stable ascending sort, modelled by
insertion sort under the lexicographic (code-point) order on strings,
expressed on the character lists so that it evaluates inside the kernel. -/
def pySorted (l : List String) : List String :=
  l.insertionSort (fun a b => a.toList ≤ b.toList)

/-- The success path of `FilesService.browse` (lines 100-115), for a current
directory `relParts` below the workdir (`relParts = []` is the workdir
itself, where `current.relative_to(base)` prints as `.`) whose `iterdir`
produced `entries`.  Folders and files are the sorted non-hidden entry
names of the matching kind; `can_go_up` is `str(rel) != "."`. -/
def browse (relParts : List String) (entries : List (String × EntryKind)) : DirectoryListing :=
  { current := if relParts.isEmpty then ("") else String.intercalate ("/") relParts
    parts := relParts
    folders := pySorted ((entries.filter
      (fun e => e.2 == EntryKind.dir && !(pyStartsWith e.1 (".")))).map (fun e => e.1))
    files := pySorted ((entries.filter
      (fun e => e.2 == EntryKind.file && !(pyStartsWith e.1 (".")))).map (fun e => e.1))
    can_go_up := !relParts.isEmpty }

/-- `Path.name`: the last segment of the rendered path, `""` at the
filesystem root. -/
def pathName (segs : List String) : String := (segs.getLast?).getD ("")

/-- The suggested download filename of `build_zip` (line 197):
`f"{target.name or 'export'}.zip"`. -/
def zipFilenameOf (target : List String) : String :=
  (if pathName target = "" then ("export") else pathName target) ++ (".zip")

/-- The filename produced by `FilesService.build_zip` (lines 164-202) for a
workdir `base` and optional relative path: the target is the resolved path
(`base` itself when the argument is `None`), the filename its name with the
`export` fallback. -/
def buildZipFilename (base : List String) (rel : Option String) : String :=
  let target := match rel with
    | some r => resolveSegs base r
    | none => base
  zipFilenameOf target

/-- Claim C1: the specification demands that the sandbox accept exactly the
resolved paths that are byte-for-byte the root or extend the root past a
path separator, denying everything else.  The code instead guards with a
bare `str(target).startswith(str(base))` (the same expression at lines 91,
125 and 180), which also accepts every *sibling* of the root whose name
merely extends the root name as a string: for root `/data/out` the caller
string `../out2/secret` canonicalises to `/data/out2/secret`, which lies
outside the root yet passes the guard, so `get_safe_path` returns it
instead of `Denied`. -/
theorem C1_guard_accepts_sibling_escape :
    get_safe_path ["data", "out"] ("../out2/secret") = some ["data", "out2", "secret"]
    ∧ insideRootB ["data", "out"] ["data", "out2", "secret"] = false
    ∧ get_safe_path ["data", "out"] ("../../etc/passwd") = none
    ∧ get_safe_path ["data", "out"] ("sub/x.png") = some ["data", "out", "sub", "x.png"] := by
  refine ⟨by decide, by decide, by decide, by decide⟩

/-- Claim C9, counterexample: building from the workdir root itself does not
produce a fixed fallback filename — the name depends on the basename of the
configured root (`out.zip` vs `other.zip`), so there is no fixed fallback
for "building from Root itself"; the `export` fallback only fires when the
target name is empty. -/
theorem C9_counterexample_fallback_not_fixed :
    buildZipFilename ["data", "out"] none = ("out.zip")
    ∧ buildZipFilename ["data", "other"] none = ("other.zip")
    ∧ buildZipFilename ["data", "out"] none ≠ buildZipFilename ["data", "other"] none := by
  refine ⟨by decide, by decide, by decide⟩

/-- Claim C9, amended: the suggested filename is always the target's own
directory name suffixed with `.zip`; the fixed fallback `export.zip` is
used exactly when that name is empty, i.e. when the target is the
filesystem root — building from a workdir Root with a nonempty basename
yields that basename plus `.zip`, not the fallback. -/
theorem C9_zip_filename :
    (∀ t s, pathName t = s → s ≠ ("") → zipFilenameOf t = s ++ (".zip"))
    ∧ (∀ t, pathName t = ("") → zipFilenameOf t = ("export.zip"))
    ∧ buildZipFilename [] none = ("export.zip")
    ∧ buildZipFilename ["data", "out"] none = ("out.zip") := by
  refine ⟨?_, ?_, by decide, by decide⟩
  · intro t s h hs
    unfold zipFilenameOf
    rw [h, if_neg hs]
  · intro t h
    unfold zipFilenameOf
    rw [h, if_pos rfl]
    decide

/-- Witness for the amended C9 theorem at a concrete target. -/
theorem C9_zip_filename_witness : zipFilenameOf ["data", "out"] = ("out.zip") :=
  C9_zip_filename.1 ["data", "out"] ("out") rfl (by decide)

/-- Claim C7: the frame-rate computation only ever divides after parsing
both integers of the `num/den` field and checking the denominator is
nonzero; whenever it reports a value, that value is `num/den` rounded to 3
decimals (the IEEE rounding of CPython modelled as exact rational
rounding); a zero denominator, an absent field, or a field without a slash
leaves fps unset, and no division error can be raised because the division
is guarded by the nonzero test. -/
theorem C7_fps_rational_safety :
    (∀ r a q, computeFps r a = some q →
        ∃ n d, pythonInt (splitFirstSlash (fpsStrOf r a)).1 = some n
          ∧ pythonInt (splitFirstSlash (fpsStrOf r a)).2 = some d
          ∧ d ≠ 0 ∧ q = pyRound3 (Rat.divInt n d))
    ∧ (∀ r a, pythonInt (splitFirstSlash (fpsStrOf r a)).2 = some 0 → computeFps r a = none)
    ∧ (∀ r a, (fpsStrOf r a).toList.contains ('/') = false → computeFps r a = none)
    ∧ computeFps none none = none := by
  refine ⟨?_, ?_, ?_, rfl⟩
  · intro r a q h
    unfold computeFps at h
    split at h
    · split at h
      · rename_i d hd
        split at h
        · rename_i hdne
          split at h
          · rename_i n hn
            refine ⟨n, d, hn, hd, hdne, ?_⟩
            injection h with hh
            exact hh.symm
          · exact absurd h (by simp)
        · exact absurd h (by simp)
      · exact absurd h (by simp)
    · exact absurd h (by simp)
  · intro r a h0
    unfold computeFps
    split
    · rw [h0]
      simp
    · rfl
  · intro r a hc
    unfold computeFps
    rw [hc]
    simp

/-- Witness for C7 at the concrete field `30/1`. -/
theorem C7_fps_witness :
    ∃ n d, pythonInt (splitFirstSlash (fpsStrOf (some ("30/1")) none)).1 = some n
      ∧ pythonInt (splitFirstSlash (fpsStrOf (some ("30/1")) none)).2 = some d
      ∧ d ≠ 0 ∧ (30 : ℚ) = pyRound3 (Rat.divInt n d) :=
  C7_fps_rational_safety.1 (some ("30/1")) none 30 rfl

/-- The string comparison Python `sorted` uses, as a relation: lexicographic
on the code-point lists. -/
instance : IsTotal String (fun a b : String => a.toList ≤ b.toList) :=
  ⟨fun a b => le_total a.toList b.toList⟩

instance : IsTrans String (fun a b : String => a.toList ≤ b.toList) :=
  ⟨fun _ _ _ hab hbc => le_trans hab hbc⟩

/-- `pySorted` output is sorted for the string order. -/
theorem pySorted_sorted (l : List String) : List.Sorted (· ≤ ·) (pySorted l) := by
  have h := List.sorted_insertionSort (fun a b : String => a.toList ≤ b.toList) l
  exact h.imp (fun hab => String.le_iff_toList_le.mpr hab)

/-- Membership in `pySorted` is membership in the input. -/
theorem mem_pySorted {x : String} {l : List String} : x ∈ pySorted l ↔ x ∈ l :=
  List.mem_insertionSort _

/-- Claim C8: the directory listing of `browse` never contains a name that
starts with a dot, its folder and file lists are each lexicographically
sorted, and `can_go_up` is false exactly at the workdir root (the empty
relative part list). -/
theorem C8_browse_listing (relParts : List String) (entries : List (String × EntryKind)) :
    (∀ n, n ∈ (browse relParts entries).folders → pyStartsWith n (".") = false)
    ∧ (∀ n, n ∈ (browse relParts entries).files → pyStartsWith n (".") = false)
    ∧ List.Sorted (· ≤ ·) (browse relParts entries).folders
    ∧ List.Sorted (· ≤ ·) (browse relParts entries).files
    ∧ ((browse relParts entries).can_go_up = false ↔ relParts = []) := by
  refine ⟨?_, ?_, pySorted_sorted _, pySorted_sorted _, ?_⟩
  · intro n hn
    rw [show (browse relParts entries).folders = pySorted ((entries.filter
        (fun e => e.2 == EntryKind.dir && !(pyStartsWith e.1 (".")))).map (fun e => e.1)) from rfl,
      mem_pySorted] at hn
    obtain ⟨e, he, rfl⟩ := List.mem_map.mp hn
    have hf := (List.mem_filter.mp he).2
    have := (Bool.and_eq_true _ _).mp hf
    simpa using this.2
  · intro n hn
    rw [show (browse relParts entries).files = pySorted ((entries.filter
        (fun e => e.2 == EntryKind.file && !(pyStartsWith e.1 (".")))).map (fun e => e.1)) from rfl,
      mem_pySorted] at hn
    obtain ⟨e, he, rfl⟩ := List.mem_map.mp hn
    have hf := (List.mem_filter.mp he).2
    have := (Bool.and_eq_true _ _).mp hf
    simpa using this.2
  · show (!relParts.isEmpty) = false ↔ relParts = []
    cases relParts <;> simp

/-- Witness for C8 at a concrete listing. -/
theorem C8_browse_witness :
    (browse [] [("b", EntryKind.file), (".h", EntryKind.dir)]).can_go_up = false :=
  (C8_browse_listing [] [("b", EntryKind.file), (".h", EntryKind.dir)]).2.2.2.2.mpr rfl

/-- The JSON payload used in the tEXt example. -/
def c5val : String := "\x7b\"nodes\":[]\x7d"

/-- A PNG whose only chunk before `IEND` is a `tEXt` chunk with key
`workflow` and value `c5val` (length 21 = 8 + 1 + 12; CRCs are zero, they
are not verified). -/
def c5png : List Nat :=
  PNG_SIG ++ [0, 0, 0, 21] ++ strBytes ("tEXt") ++ strBytes ("workflow") ++ [0] ++ strBytes c5val
    ++ [0, 0, 0, 0] ++ [0, 0, 0, 0] ++ strBytes ("IEND") ++ [0, 0, 0, 0]

/-- An 8-byte-payload IHDR chunk declaring the given width and height. -/
def ihdrChunk (w h : Nat) : List Nat :=
  [0, 0, 0, 8] ++ strBytes ("IHDR") ++ [0, 0, 0, w] ++ [0, 0, 0, h] ++ [0, 0, 0, 0]

/-- A PNG with two IHDR chunks: the first declares 1 by 2, the second 3 by 4. -/
def twoIhdrPng : List Nat :=
  PNG_SIG ++ ihdrChunk 1 2 ++ ihdrChunk 3 4 ++ [0, 0, 0, 0] ++ strBytes ("IEND") ++ [0, 0, 0, 0]

/-- A PNG with a `zTXt` chunk (key `comp`, compressed payload `[1, 2, 3]`)
followed by a `tEXt` chunk (key `a`, value `b`) and `IEND`. -/
def c6png : List Nat :=
  PNG_SIG ++ [0, 0, 0, 9] ++ strBytes ("zTXt") ++ (strBytes ("comp") ++ [0, 0, 1, 2, 3]) ++ [0, 0, 0, 0]
    ++ [0, 0, 0, 3] ++ strBytes ("tEXt") ++ [97, 0, 98] ++ [0, 0, 0, 0]
    ++ [0, 0, 0, 0] ++ strBytes ("IEND") ++ [0, 0, 0, 0]

/-- The chunk-step of the PNG loop never touches the `error` field. -/
theorem pngStep_error (dcmp : List Nat → Option (List Nat)) (t : String) (chunk : List Nat)
    (m : FileMetadata) : (pngStep dcmp t chunk m).error = m.error := by
  unfold pngStep
  repeat' split
  all_goals rfl

/-- The PNG chunk loop never touches the `error` field. -/
theorem pngLoop_error (dcmp : List Nat → Option (List Nat)) (data : List Nat) :
    ∀ fuel offset meta, (pngLoop dcmp data fuel offset meta).error = meta.error := by
  intro fuel
  induction fuel with
  | zero => intro offset meta; rfl
  | succ f ih =>
    intro offset meta
    simp only [pngLoop]
    split
    · split
      · rfl
      · rw [ih, pngStep_error]
    · rfl

/-- The ComfyUI lift never touches the `error` field. -/
theorem liftMeta_error (m : FileMetadata) : (liftMeta m).error = m.error := by
  unfold liftMeta liftPrompt liftWorkflow
  repeat' split
  all_goals rfl

/-- The ComfyUI lift never touches the raw chunk mapping. -/
theorem liftMeta_raw (m : FileMetadata) :
    (liftMeta m).raw_text_chunks = m.raw_text_chunks := by
  unfold liftMeta liftPrompt liftWorkflow
  repeat' split
  all_goals rfl

/-- Claim C4, counterexample: for a buffer whose first IHDR declares 1 by 2
and whose second declares 3 by 4, the decoder reports 3 by 4 — the values
of the *second* IHDR, not the first 8 payload bytes of the first IHDR as
the claim states. -/
theorem C4_counterexample_second_ihdr_wins :
    (parse_png noDecomp twoIhdrPng).width = some 3
    ∧ (parse_png noDecomp twoIhdrPng).height = some 4
    ∧ ¬ ((parse_png noDecomp twoIhdrPng).width = some 1) := by
  refine ⟨rfl, rfl, ?_⟩
  intro hcontra
  rw [show (parse_png noDecomp twoIhdrPng).width = some 3 from rfl] at hcontra
  simp at hcontra

/-- Claim C4, amended: every IHDR chunk with at least 8 payload bytes
overwrites width and height with its two big-endian u32 values, so when
several IHDR chunks occur, the *last* one processed before `IEND` is
honored; in particular the two-IHDR buffer decodes to the second pair. -/
theorem C4_ihdr_overwrite (dcmp : List Nat → Option (List Nat)) (chunk : List Nat)
    (meta : FileMetadata) (h : 8 ≤ chunk.length) :
    ((pngStep dcmp ("IHDR") chunk meta).width = some (readU32 chunk 0)
     ∧ (pngStep dcmp ("IHDR") chunk meta).height = some (readU32 chunk 4))
    ∧ (parse_png noDecomp twoIhdrPng).width = some 3
    ∧ (parse_png noDecomp twoIhdrPng).height = some 4 := by
  refine ⟨?_, rfl, rfl⟩
  unfold pngStep
  rw [if_pos ⟨rfl, h⟩]
  exact ⟨rfl, rfl⟩

/-- Witness for the amended C4 theorem at a concrete IHDR payload. -/
theorem C4_ihdr_overwrite_witness :
    (pngStep noDecomp ("IHDR") [0, 0, 2, 0, 0, 0, 3, 0] {}).width = some 512 :=
  (C4_ihdr_overwrite noDecomp [0, 0, 2, 0, 0, 0, 3, 0] {} (by decide)).1.1

/-- Claim C10: the PNG chunk-scanning loop terminates.  Each iteration
advances the offset to `offset + 12 + length` where `length` is the
non-negative u32 length field, so the offset grows by at least 12 and the
remaining byte count strictly shrinks; consequently the loop result is
independent of the structural fuel as soon as the fuel covers the remaining
bytes (`parse_png` passes `data.length`, which always suffices). -/
theorem C10_png_loop_termination :
    (∀ dcmp data offset meta fuel1 fuel2,
        data.length - offset ≤ fuel1 → data.length - offset ≤ fuel2 →
        pngLoop dcmp data fuel1 offset meta = pngLoop dcmp data fuel2 offset meta)
    ∧ (∀ data offset, nextOffset data offset = offset + 12 + chunkLenAt data offset
        ∧ offset + 12 ≤ nextOffset data offset)
    ∧ (∀ data offset, offset + 8 ≤ data.length →
        data.length - nextOffset data offset < data.length - offset) := by
  refine ⟨?_, ?_, ?_⟩
  · intro dcmp data
    have main : ∀ fuel1 fuel2 offset meta,
        data.length - offset ≤ fuel1 → data.length - offset ≤ fuel2 →
        pngLoop dcmp data fuel1 offset meta = pngLoop dcmp data fuel2 offset meta := by
      intro fuel1
      induction fuel1 with
      | zero =>
        intro fuel2 offset meta h1 h2
        cases fuel2 with
        | zero => rfl
        | succ g =>
          simp only [pngLoop]
          rw [if_neg (by omega : ¬ offset + 8 ≤ data.length)]
      | succ f ih =>
        intro fuel2 offset meta h1 h2
        cases fuel2 with
        | zero =>
          simp only [pngLoop]
          rw [if_neg (by omega : ¬ offset + 8 ≤ data.length)]
        | succ g =>
          simp only [pngLoop]
          by_cases hg : offset + 8 ≤ data.length
          · rw [if_pos hg, if_pos hg]
            by_cases hIend : chunkTypeAt data offset = ("IEND")
            · rw [if_pos hIend, if_pos hIend]
            · rw [if_neg hIend, if_neg hIend]
              apply ih
              · unfold nextOffset
                omega
              · unfold nextOffset
                omega
          · rw [if_neg hg, if_neg hg]
    intro offset meta fuel1 fuel2 h1 h2
    exact main fuel1 fuel2 offset meta h1 h2
  · intro data offset
    refine ⟨rfl, ?_⟩
    unfold nextOffset
    omega
  · intro data offset h
    unfold nextOffset
    omega

/-- Witness for C10: two sufficient fuels give the same loop result on a
concrete buffer. -/
theorem C10_witness :
    pngLoop noDecomp c6png 60 8 ({} : FileMetadata)
      = pngLoop noDecomp c6png 70 8 ({} : FileMetadata) :=
  C10_png_loop_termination.1 noDecomp c6png 8 {} 60 70 (by decide) (by decide)

/-- The prompt lift never touches the `workflow` field. -/
theorem liftPrompt_workflow (m : FileMetadata) : (liftPrompt m).workflow = m.workflow := by
  unfold liftPrompt
  repeat' split
  all_goals rfl

/-- The workflow lift never touches the raw chunk mapping. -/
theorem liftWorkflow_raw (m : FileMetadata) :
    (liftWorkflow m).raw_text_chunks = m.raw_text_chunks := by
  unfold liftWorkflow
  repeat' split
  all_goals rfl

/-- Claim C5: a PNG carrying a `tEXt` chunk `workflow = '{"nodes":[]}'`
decodes with `workflow` set to the parsed JSON object and the raw text kept
verbatim in `raw_text_chunks`; and in general, when the value under the
first present `workflow`/`Workflow` (resp. `prompt`/`Prompt`) key fails to
parse as JSON, the lifted field is left unset while the raw mapping is
untouched. -/
theorem C5_text_workflow_lift :
    ((parse_png noDecomp c5png).workflow = some (Json.obj [("nodes", Json.arr [])])
     ∧ lookupA (parse_png noDecomp c5png).raw_text_chunks ("workflow") = some c5val)
    ∧ (∀ m v, lookupA m.raw_text_chunks ("workflow") = some v → json_loads v = none →
        (liftMeta m).workflow = none ∧ (liftMeta m).raw_text_chunks = m.raw_text_chunks)
    ∧ (∀ m v, lookupA m.raw_text_chunks ("prompt") = some v → json_loads v = none →
        (liftMeta m).prompt = none ∧ (liftMeta m).raw_text_chunks = m.raw_text_chunks) := by
  refine ⟨⟨rfl, rfl⟩, ?_, ?_⟩
  · intro m v hv hj
    refine ⟨?_, liftMeta_raw m⟩
    unfold liftMeta
    rw [liftPrompt_workflow]
    unfold liftWorkflow
    rw [if_pos (by simp [containsKey, hv])]
    show (lookupA m.raw_text_chunks ("workflow")).bind try_json = none
    rw [hv]
    show try_json v = none
    unfold try_json
    rw [hj]
    rfl
  · intro m v hv hj
    refine ⟨?_, liftMeta_raw m⟩
    unfold liftMeta liftPrompt
    rw [liftWorkflow_raw]
    rw [if_pos (by simp [containsKey, hv])]
    show (lookupA m.raw_text_chunks ("prompt")).bind try_json = none
    rw [hv]
    show try_json v = none
    unfold try_json
    rw [hj]
    rfl

/-- Witness for the general clauses of C5 at a concrete unparsable value. -/
theorem C5_lift_witness :
    (liftMeta { raw_text_chunks := [("workflow", "notjson")] }).workflow = none :=
  (C5_text_workflow_lift.2.1 { raw_text_chunks := [("workflow", "notjson")] }
    ("notjson") rfl rfl).1

/-- Claim C6: the PNG loop can never set the `error` field, so a decode that
passed the signature check finishes without error no matter what chunks
follow; concretely, for any decompressor failing on the `[1, 2, 3]` payload
of the `comp` zTXt chunk, the chunk is skipped (its key absent from the raw
mapping), the following `tEXt` chunk is still decoded, and `error` stays
unset. -/
theorem C6_ztxt_failure_recovery (dcmp : List Nat → Option (List Nat))
    (h : dcmp [1, 2, 3] = none) :
    (∀ d data, PNG_SIG.isPrefixOf data = true → (parse_png d data).error = none)
    ∧ (parse_png dcmp c6png).error = none
    ∧ lookupA (parse_png dcmp c6png).raw_text_chunks ("comp") = none
    ∧ lookupA (parse_png dcmp c6png).raw_text_chunks ("a") = some ("b") := by
  refine ⟨?_, ?_⟩
  · intro d data hsig
    unfold parse_png
    rw [if_pos hsig, liftMeta_error, pngLoop_error]
  · have e1 : pngStep dcmp (chunkTypeAt c6png 8) (chunkDataAt c6png 8) ({} : FileMetadata) =
        ({} : FileMetadata) := by
      show (match dcmp [1, 2, 3] with
            | some v =>
              { ({} : FileMetadata) with
                raw_text_chunks := insertAssoc [] ("comp") (latin1Decode v) }
            | none => ({} : FileMetadata)) = ({} : FileMetadata)
      rw [h]
    have e0 : parse_png dcmp c6png =
        liftMeta (pngLoop dcmp c6png 55 29
          (pngStep dcmp (chunkTypeAt c6png 8) (chunkDataAt c6png 8) ({} : FileMetadata))) := by
      set_option maxHeartbeats 2000000 in rfl
    rw [e0, e1]
    exact ⟨rfl, rfl, rfl⟩

/-- Witness for C6 with the always-failing decompressor. -/
theorem C6_witness :
    (parse_png noDecomp c6png).error = none
    ∧ lookupA (parse_png noDecomp c6png).raw_text_chunks ("comp") = none :=
  ⟨(C6_ztxt_failure_recovery noDecomp rfl).2.1,
   (C6_ztxt_failure_recovery noDecomp rfl).2.2.1⟩

/-- The stream pass never touches the `prompt` field. -/
theorem streamPass_prompt (ss : List ProbeStream) (m : FileMetadata) :
    (streamPass ss m).prompt = m.prompt := by
  unfold streamPass
  split
  all_goals rfl

/-- The stream pass never touches the `workflow` field. -/
theorem streamPass_workflow (ss : List ProbeStream) (m : FileMetadata) :
    (streamPass ss m).workflow = m.workflow := by
  unfold streamPass
  split
  all_goals rfl

/-- The duration pass never touches the `prompt` field. -/
theorem durationPass_prompt (d : Option String) (m : FileMetadata) :
    (durationPass d m).prompt = m.prompt := by
  unfold durationPass
  repeat' split
  all_goals rfl

/-- The duration pass never touches the `workflow` field. -/
theorem durationPass_workflow (d : Option String) (m : FileMetadata) :
    (durationPass d m).workflow = m.workflow := by
  unfold durationPass
  repeat' split
  all_goals rfl

/-- A truthy comment tag routes the comment block through `commentApply`. -/
theorem commentPass_some (tags : List (String × String)) (m : FileMetadata) (c : String)
    (h : commentRawOf tags = some c) : commentPass tags m = commentApply c m := by
  unfold commentPass
  rw [h]

/-- Without a truthy comment tag the comment block is skipped. -/
theorem commentPass_none (tags : List (String × String)) (m : FileMetadata)
    (h : commentRawOf tags = none) : commentPass tags m = m := by
  unfold commentPass
  rw [h]

/-- The standalone prompt fallback never touches the `workflow` field. -/
theorem standalonePromptPass_workflow (t : List (String × String)) (m : FileMetadata) :
    (standalonePromptPass t m).workflow = m.workflow := by
  unfold standalonePromptPass
  repeat' split
  all_goals rfl

/-- An already-set `workflow` disables the standalone workflow fallback. -/
theorem standaloneWorkflowPass_of_set (t : List (String × String)) (m : FileMetadata)
    (j : Json) (h : m.workflow = some j) : standaloneWorkflowPass t m = m := by
  unfold standaloneWorkflowPass
  rw [if_neg]
  rw [h]
  simp

/-- An already-set `prompt` disables the standalone prompt fallback. -/
theorem standalonePromptPass_of_set (t : List (String × String)) (m : FileMetadata)
    (j : Json) (h : m.prompt = some j) : standalonePromptPass t m = m := by
  unfold standalonePromptPass
  rw [if_neg]
  rw [h]
  simp

/-- A standalone workflow tag parsing to an object without a `nodes` key is
ignored by the fallback. -/
theorem standaloneWorkflowPass_no_nodes (t : List (String × String)) (m : FileMetadata)
    (w : String) (kvs : List (String × Json))
    (hw : firstTruthyKeyVal t wfKeys = some w)
    (hj : try_json w = some (Json.obj kvs))
    (hn : containsKey kvs ("nodes") = false) :
    (standaloneWorkflowPass t m).workflow = m.workflow := by
  unfold standaloneWorkflowPass
  by_cases hset : m.workflow.isNone
  · rw [if_pos hset]
    simp only [hw, hj]
    rw [if_neg (by rw [hn]; simp)]
  · rw [if_neg hset]

/-- The comment payload of the C2 example. -/
def c2str : String := "\x7b\"prompt\": \x7b\"x\":1\x7d, \"workflow\": \x7b\"nodes\":[]\x7d\x7d"

/-- Claim C2: whenever the effective comment tag is the JSON text
`{"prompt": {"x":1}, "workflow": {"nodes":[]}}`, the merge lifts
`prompt = {"x":1}` and `workflow = {"nodes":[]}` (the standalone fallbacks
do not run because both fields are already set); and in general, for a
comment parsing to a JSON object: with a `nodes` key the whole object
becomes `workflow` and a nested `prompt` *object* is additionally lifted;
without `nodes` but with a `prompt` key the member value becomes `prompt`
(a JSON `null` member being the Python value `None`) and a nested
`workflow` object is additionally lifted; otherwise the whole object
becomes `prompt`. -/
theorem C2_comment_tag_precedence (pd : ProbeData)
    (h : commentRawOf pd.format.tags = some c2str) :
    ((parse_video pd).prompt = some (Json.obj [("x", Json.num 1)])
     ∧ (parse_video pd).workflow = some (Json.obj [("nodes", Json.arr [])]))
    ∧ (∀ c kvs m, try_json c = some (Json.obj kvs) →
        (containsKey kvs ("nodes") = true →
          (commentApply c m).workflow = some (Json.obj kvs)
          ∧ (∀ p, lookupA kvs ("prompt") = some (Json.obj p) →
              (commentApply c m).prompt = some (Json.obj p)))
        ∧ (containsKey kvs ("nodes") = false →
          (∀ pv, lookupA kvs ("prompt") = some pv →
            (commentApply c m).prompt = pyOptJson pv
            ∧ (∀ w, lookupA kvs ("workflow") = some (Json.obj w) →
                (commentApply c m).workflow = some (Json.obj w)))
          ∧ (lookupA kvs ("prompt") = none →
            (commentApply c m).prompt = some (Json.obj kvs)))) := by
  constructor
  · have e : parse_video pd =
        standalonePromptPass pd.format.tags (standaloneWorkflowPass pd.format.tags
          (commentApply c2str (durationPass pd.format.duration (streamPass pd.streams ({}))))) := by
      unfold parse_video
      rw [commentPass_some pd.format.tags _ c2str h]
    rw [e]
    set_option maxHeartbeats 1000000 in
    exact ⟨rfl, rfl⟩
  · intro c kvs m hj
    constructor
    · intro hn
      constructor
      · unfold commentApply
        simp only [hj]
        rw [if_pos hn]
        split
        all_goals rfl
      · intro p hp
        unfold commentApply
        simp only [hj]
        rw [if_pos hn]
        simp only [hp]
    · intro hn
      constructor
      · intro pv hp
        constructor
        · unfold commentApply
          simp only [hj]
          rw [if_neg (by rw [hn]; simp)]
          simp only [hp]
          split
          all_goals rfl
        · intro w hw
          unfold commentApply
          simp only [hj]
          rw [if_neg (by rw [hn]; simp)]
          simp only [hp, hw]
      · intro hp
        unfold commentApply
        simp only [hj]
        rw [if_neg (by rw [hn]; simp)]
        simp only [hp]

/-- Witness for C2 at the concrete probe result carrying only the comment
tag. -/
theorem C2_witness :
    (parse_video { format := { tags := [("comment", c2str)] } }).prompt
      = some (Json.obj [("x", Json.num 1)]) :=
  (C2_comment_tag_precedence { format := { tags := [("comment", c2str)] } } rfl).1.1

/-- Claim C3: with no truthy comment tag, a standalone workflow tag whose
value parses to a JSON object without a `nodes` key leaves `workflow`
unset; in general the standalone workflow fallback only honors a parsed
object containing `nodes`, and both standalone fallbacks are consulted only
for fields still unset after the comment-derived pass (an already-set field
is returned untouched). -/
theorem C3_standalone_workflow_requires_nodes (pd : ProbeData) (w : String)
    (kvs : List (String × Json))
    (hc : commentRawOf pd.format.tags = none)
    (hw : firstTruthyKeyVal pd.format.tags wfKeys = some w)
    (hj : try_json w = some (Json.obj kvs))
    (hn : containsKey kvs ("nodes") = false) :
    (parse_video pd).workflow = none
    ∧ (∀ t m w2 kvs2, firstTruthyKeyVal t wfKeys = some w2 →
        try_json w2 = some (Json.obj kvs2) → containsKey kvs2 ("nodes") = false →
        (standaloneWorkflowPass t m).workflow = m.workflow)
    ∧ (∀ t m j, m.workflow = some j → (standaloneWorkflowPass t m).workflow = some j)
    ∧ (∀ t m j, m.prompt = some j → (standalonePromptPass t m).prompt = some j) := by
  refine ⟨?_, ?_, ?_, ?_⟩
  · unfold parse_video
    rw [commentPass_none pd.format.tags _ hc, standalonePromptPass_workflow,
      standaloneWorkflowPass_no_nodes pd.format.tags _ w kvs hw hj hn,
      durationPass_workflow, streamPass_workflow]
  · intro t m w2 kvs2 hw2 hj2 hn2
    exact standaloneWorkflowPass_no_nodes t m w2 kvs2 hw2 hj2 hn2
  · intro t m j hset
    rw [standaloneWorkflowPass_of_set t m j hset, hset]
  · intro t m j hset
    rw [standalonePromptPass_of_set t m j hset, hset]

/-- Witness for C3 at the concrete probe result whose only tag is a
standalone workflow object without `nodes`. -/
theorem C3_witness :
    (parse_video { format := { tags := [("workflow", "\x7b\"foo\":1\x7d")] } }).workflow = none :=
  (C3_standalone_workflow_requires_nodes
    { format := { tags := [("workflow", "\x7b\"foo\":1\x7d")] } }
    ("\x7b\"foo\":1\x7d") [("foo", Json.num 1)] rfl rfl rfl rfl).1
